import Mathlib

/-!
Shallow embedding of the spike HTTP routing/dispatch core
(src/response.rs, src/extract.rs, src/handler.rs, src/router.rs).

Conventions of the embedding:
* Rust `String`/`&str` values that stand for body text are represented by
  their UTF-8 byte sequences (`List Nat`), since the code only ever moves
  those bytes around; ASCII literals are produced with `asciiBytes`.
* `http::StatusCode` is a `Nat` (200, 201, 404, 405, 500, ...).
* `touche::Body` is either materialized bytes or a stream whose read fails
  (`into_bytes` surfaces an `io::Error`).
* Uninhabited Rust types (`Infallible`) are `Empty`.
* Trait objects are function fields: a `Route`'s boxed service is its
  `call` function; generic extractors/contributors are records bundling a
  value type, a rejection type, the extraction function and the
  rejection's own `IntoResponse` conversion.
* A Rust panic during router construction is `Except.error msg` where
  `msg` is the panic message.
-/

namespace Spike

/-- `http::Method`: the nine methods the router dispatches on, plus
extension methods (which match none of the method arms). -/
inductive Method where
  | GET
  | POST
  | PUT
  | PATCH
  | DELETE
  | OPTIONS
  | TRACE
  | HEAD
  | CONNECT
  | OTHER (name : String)
deriving DecidableEq

/-- `touche::Body`: materialized bytes, or a stream whose read errors
(the `io::Error` case of `into_bytes`). -/
inductive Body where
  | bytes (data : List Nat)
  | readError
deriving DecidableEq

/-- `Body::into_bytes`: the materialized bytes, or the read error. -/
def Body.intoBytes : Body → Except Unit (List Nat)
  | .bytes data => .ok data
  | .readError => .error ()

/-- `Body::empty()`. -/
def Body.empty : Body := .bytes []

/-- UTF-8 bytes of an ASCII string literal (every literal in this codebase
is ASCII, for which the UTF-8 encoding is the character codes). -/
def asciiBytes (s : String) : List Nat := s.data.map Char.toNat

/-- `touche::Response<Body>` as produced by this code: status, headers,
materialized body bytes. -/
structure Response where
  status : Nat
  headers : List (String × String)
  body : List Nat
deriving DecidableEq

/-- `http::response::Parts`: status and headers of a response. -/
structure ResponseParts where
  status : Nat
  headers : List (String × String)
deriving DecidableEq

/-- `Response::into_parts`. -/
def Response.intoParts (r : Response) : ResponseParts × List Nat :=
  (⟨r.status, r.headers⟩, r.body)

/-- `Response::from_parts`. -/
def Response.fromParts (p : ResponseParts) (body : List Nat) : Response :=
  ⟨p.status, p.headers, body⟩

/-- `HeaderMap::insert`: any existing values stored for the key are
dropped and the new value is stored. -/
def headerInsert (hs : List (String × String)) (k v : String) :
    List (String × String) :=
  hs.filter (fun p => p.1 != k) ++ [(k, v)]

/-- `Response::builder().status(s).body(b).unwrap()`: a fresh response
with no headers. -/
def Response.build (status : Nat) (body : List Nat) : Response :=
  ⟨status, [], body⟩

/-- `impl IntoResponse for StatusCode` (response.rs): that status with an
empty body. -/
def statusCodeIntoResponse (s : Nat) : Response := Response.build s []

/-- `impl IntoResponse for Response<Body>` (response.rs): itself. -/
def responseIntoResponse (r : Response) : Response := r

/-- `impl IntoResponse for Infallible` (response.rs): unreachable. -/
def infallibleIntoResponse (e : Empty) : Response := e.elim

/-- `impl IntoResponse for &'static str` (response.rs): 200 OK with the
string's bytes, then the content-type header is inserted. -/
def strIntoResponse (s : List Nat) : Response :=
  let res := Response.build 200 s
  { res with headers := headerInsert res.headers "content-type" "text/plain;charset=utf-8" }

/-- `impl IntoResponse for String` (response.rs): textually identical to
the `&'static str` impl. -/
def stringIntoResponse (s : List Nat) : Response :=
  let res := Response.build 200 s
  { res with headers := headerInsert res.headers "content-type" "text/plain;charset=utf-8" }

/-- `impl IntoResponse for Cow<'static, [u8]>` (response.rs): 200 OK with
the bytes, then the content-type header is inserted. -/
def cowBytesIntoResponse (b : List Nat) : Response :=
  let res := Response.build 200 b
  { res with headers := headerInsert res.headers "content-type" "application/octet-stream" }

/-- `impl IntoResponse for &'static [u8]`: via `Cow::Borrowed`. -/
def byteSliceIntoResponse (b : List Nat) : Response := cowBytesIntoResponse b

/-- `impl<const N> IntoResponse for &'static [u8; N]`: via `as_slice`. -/
def byteArrayRefIntoResponse (b : List Nat) : Response := byteSliceIntoResponse b

/-- `impl IntoResponse for Vec<u8>`: via `Cow::Owned`. -/
def byteVecIntoResponse (b : List Nat) : Response := cowBytesIntoResponse b

/-- `impl<const N> IntoResponse for [u8; N]`: via `to_vec`. -/
def byteArrayIntoResponse (b : List Nat) : Response := byteVecIntoResponse b

/-- An `IntoResponseParts` implementor: its rejection type, the
`into_response_parts` function (the implementor's own captured data is
inside the closure), and the rejection's `IntoResponse` conversion used
by the composite-tuple impl. -/
structure ResponsePartContributor where
  Err : Type
  intoResponseParts : ResponseParts → Except Err ResponseParts
  errIntoResponse : Err → Response

/-- The part-contributor loop of `impl_into_response` (response.rs):
apply each contributor, left to right, to the accumulated parts; a failing
contributor's rejection is converted and returned immediately. -/
def applyResponseParts :
    List ResponsePartContributor → ResponseParts → Except Response ResponseParts
  | [], parts => .ok parts
  | c :: cs, parts =>
    match c.intoResponseParts parts with
    | .ok parts' => applyResponseParts cs parts'
    | .error err => .error (c.errIntoResponse err)

/-- `impl_into_response` for a tuple `(C1, ..., Ck, R)` (response.rs):
`lastRes` is the final element already converted by its own
`IntoResponse`; it is split into parts and body, the part contributors
are applied left to right (short-circuiting to a failing contributor's
converted rejection), and the response is reassembled from the updated
parts and the untouched body. -/
def tupleIntoResponse (cs : List ResponsePartContributor) (lastRes : Response) :
    Response :=
  match lastRes.intoParts with
  | (parts, body) =>
    match applyResponseParts cs parts with
    | .ok parts' => Response.fromParts parts' body
    | .error resp => resp

/-- `impl IntoResponseParts for StatusCode` (response.rs): overwrite the
status, keep everything else; infallible. -/
def statusCodeIntoResponseParts (s : Nat) (parts : ResponseParts) :
    Except Empty ResponseParts :=
  .ok { parts with status := s }

/-- A `StatusCode` packaged as a part contributor for the tuple impl. -/
def statusCodeContributor (s : Nat) : ResponsePartContributor :=
  ⟨Empty, statusCodeIntoResponseParts s, infallibleIntoResponse⟩

/-- `http::request::Parts`: metadata of a request (method, uri path,
headers, extensions); the body is held separately. The extensions carry
the captured path parameters the router inserts (the only use of
extensions in this code). -/
structure RequestParts where
  method : Method
  uriPath : String
  headers : List (String × String)
  extensions : Option (List (String × String))
deriving DecidableEq

/-- `touche::Request<Body>`. -/
structure Request where
  method : Method
  uriPath : String
  headers : List (String × String)
  extensions : Option (List (String × String))
  body : Body
deriving DecidableEq

/-- `Request::into_parts`. -/
def Request.intoParts (r : Request) : RequestParts × Body :=
  (⟨r.method, r.uriPath, r.headers, r.extensions⟩, r.body)

/-- `Request::from_parts`. -/
def Request.fromParts (p : RequestParts) (b : Body) : Request :=
  ⟨p.method, p.uriPath, p.headers, p.extensions, b⟩

/-- UTF-8 continuation byte: `0x80 ..= 0xBF`. -/
def contByte (b : Nat) : Bool := decide (0x80 ≤ b) && decide (b ≤ 0xBF)

/-- Success condition of `std::str::from_utf8`: standard UTF-8 validation
(rejecting overlong encodings, surrogates, and code points above
U+10FFFF). -/
def validUtf8 : List Nat → Bool
  | [] => true
  | b :: rest =>
    if b < 0x80 then validUtf8 rest
    else if b < 0xC2 then false
    else if b < 0xE0 then
      match rest with
      | c :: rest2 => contByte c && validUtf8 rest2
      | [] => false
    else if b < 0xF0 then
      match rest with
      | c :: d :: rest2 =>
        (if b = 0xE0 then decide (0xA0 ≤ c) && contByte c
         else if b = 0xED then contByte c && decide (c ≤ 0x9F)
         else contByte c) && contByte d && validUtf8 rest2
      | _ => false
    else if b ≤ 0xF4 then
      match rest with
      | c :: d :: e :: rest2 =>
        (if b = 0xF0 then decide (0x90 ≤ c) && contByte c
         else if b = 0xF4 then contByte c && decide (c ≤ 0x8F)
         else contByte c) && contByte d && contByte e && validUtf8 rest2
      | _ => false
    else false

/-- `StringRejection` (extract.rs): body read error, or invalid UTF-8.
(The wrapped `io::Error`/`Utf8Error` payloads are never inspected.) -/
inductive StringRejection where
  | ioErr
  | invalidUtf8
deriving DecidableEq

/-- `impl IntoResponse for StringRejection` (extract.rs): 500 with the
fixed body, no headers. -/
def StringRejection.intoResponse (_ : StringRejection) : Response :=
  Response.build 500 (asciiBytes "error reading body")

/-- `impl FromRequestPart for Method` (extract.rs): clone the method,
parts untouched, infallible. -/
def methodFromRequestParts (parts : RequestParts) :
    Except Empty (Method × RequestParts) :=
  .ok (parts.method, parts)

/-- `impl FromRequestPart for HeaderMap` (extract.rs): clone the headers,
parts untouched, infallible. -/
def headerMapFromRequestParts (parts : RequestParts) :
    Except Empty (List (String × String) × RequestParts) :=
  .ok (parts.headers, parts)

/-- `impl FromRequest for String` (extract.rs): read the whole body
(`Io` rejection on a stream error), validate it as UTF-8 (`InvalidUtf8`
rejection otherwise); the resulting Rust String is represented by its
UTF-8 bytes. -/
def stringFromRequest (req : Request) : Except StringRejection (List Nat) :=
  match req.body.intoBytes with
  | .error _ => .error .ioErr
  | .ok bs => if validUtf8 bs then .ok bs else .error .invalidUtf8

/-- A `FromRequestPart` implementor: value type, rejection type, the
`from_request_parts` function (taking and returning the parts, modelling
`&mut Parts`), and the rejection's `IntoResponse` conversion the adapter
applies on failure. -/
structure PartExtractor where
  Val : Type
  Rej : Type
  extract : RequestParts → Except Rej (Val × RequestParts)
  rejIntoResponse : Rej → Response

/-- A `FromRequest` implementor (the final, body-consuming extractor). -/
structure FullExtractor where
  Val : Type
  Rej : Type
  extract : Request → Except Rej Val
  rejIntoResponse : Rej → Response

/-- The extracted values of a list of part extractors, in declaration
order. -/
inductive PartVals : List PartExtractor → Type 1 where
  | nil : PartVals []
  | cons {e : PartExtractor} {es : List PartExtractor}
      (v : e.Val) (vs : PartVals es) : PartVals (e :: es)

/-- First extracted value. -/
def PartVals.headVal {e : PartExtractor} {es : List PartExtractor} :
    PartVals (e :: es) → e.Val
  | .cons v _ => v

/-- The part-extraction loop of `impl_handler` (handler.rs): run each
part extractor, in declaration order, threading the (possibly mutated)
parts; a failing extractor's rejection is converted by its own
`IntoResponse` and returned immediately, so later extractors never run. -/
def runPartExtractors :
    (es : List PartExtractor) → RequestParts →
      Except Response (PartVals es × RequestParts)
  | [], parts => .ok (.nil, parts)
  | e :: es, parts =>
    match e.extract parts with
    | .error rej => .error (e.rejIntoResponse rej)
    | .ok (v, parts') =>
      match runPartExtractors es parts' with
      | .error resp => .error resp
      | .ok (vs, parts'') => .ok (.cons v vs, parts'')

/-- `Handler::call` from `impl_handler` (handler.rs) for a handler with
part extractors `es` and final full-request extractor `fe`: split the
request into parts and body, run the part extractions (short-circuiting
on a rejection), reassemble the request from the threaded parts and the
untouched body, run the full-request extraction (short-circuiting on a
rejection), then invoke the user function. `f` stands for the user
function composed with its result's own `IntoResponse` conversion. -/
def handlerCall (es : List PartExtractor) (fe : FullExtractor)
    (f : PartVals es → fe.Val → Response) (req : Request) : Response :=
  match req.intoParts with
  | (parts, body) =>
    match runPartExtractors es parts with
    | .error resp => resp
    | .ok (vs, parts') =>
      match fe.extract (Request.fromParts parts' body) with
      | .error rej => fe.rejIntoResponse rej
      | .ok last => f vs last

/-- `Method` packaged as a part extractor. -/
def methodPE : PartExtractor :=
  ⟨Method, Empty, methodFromRequestParts, infallibleIntoResponse⟩

/-- `HeaderMap` packaged as a part extractor. -/
def headerMapPE : PartExtractor :=
  ⟨List (String × String), Empty, headerMapFromRequestParts, infallibleIntoResponse⟩

/-- `String` packaged as the final full-request extractor. -/
def stringFE : FullExtractor :=
  ⟨List Nat, StringRejection, stringFromRequest, StringRejection.intoResponse⟩

/-- A boxed `dyn RoutedService<Body = Body, Error = Infallible>` stored in
a `Route` (router.rs): its `Service::call` function. -/
structure Route where
  svcCall : Request → Except Empty Response

/-- `Box::new(HandlerService::new(handler))`: `HandlerService`'s
`Service::call` clones the handler and invokes `Handler::call`, always
returning `Ok` (handler.rs). `h` is the handler's `Handler::call`. -/
def Route.ofHandler (h : Request → Response) : Route :=
  ⟨fun req => .ok (h req)⟩

/-- `MethodRouter` (router.rs): one optional route per HTTP method plus
an optional fallback. -/
structure MethodRouter where
  get : Option Route
  post : Option Route
  put : Option Route
  patch : Option Route
  delete : Option Route
  options : Option Route
  trace : Option Route
  head : Option Route
  connect : Option Route
  fallback : Option Route

/-- `impl Default for MethodRouter`: all slots empty. -/
def MethodRouter.default : MethodRouter :=
  ⟨none, none, none, none, none, none, none, none, none, none⟩

/-- The panic message of `MethodRouter::merge` on a slot conflict. -/
def mergePanicMessage : String := "Method already defined"

/-- One slot of the `merge_methods!` loop (router.rs): adopt the incoming
slot when only it is set, panic when both are set, otherwise keep the
existing slot. -/
def mergeSlot (self incoming : Option Route) : Except String (Option Route) :=
  if self.isNone && incoming.isSome then .ok incoming
  else if self.isSome && incoming.isSome then .error mergePanicMessage
  else .ok self

/-- `MethodRouter::merge` (router.rs): merge slot by slot in the order of
the `merge_methods!` invocation (get, post, put, patch, delete, head,
options, trace, connect, fallback), stopping at the first conflict. -/
def MethodRouter.merge (self incoming : MethodRouter) :
    Except String MethodRouter := do
  let get ← mergeSlot self.get incoming.get
  let post ← mergeSlot self.post incoming.post
  let put ← mergeSlot self.put incoming.put
  let patch ← mergeSlot self.patch incoming.patch
  let delete ← mergeSlot self.delete incoming.delete
  let head ← mergeSlot self.head incoming.head
  let options ← mergeSlot self.options incoming.options
  let trace ← mergeSlot self.trace incoming.trace
  let connect ← mergeSlot self.connect incoming.connect
  let fallback ← mergeSlot self.fallback incoming.fallback
  return ⟨get, post, put, patch, delete, options, trace, head, connect, fallback⟩

/-- `MethodRouter::get` from `impl_method_router_methods!` (router.rs):
struct-update — the slot is set unconditionally, any previous route in it
is dropped. -/
def MethodRouter.get' (self : MethodRouter) (h : Request → Response) : MethodRouter :=
  { self with get := some (Route.ofHandler h) }

/-- `MethodRouter::post` (see `MethodRouter.get'`). -/
def MethodRouter.post' (self : MethodRouter) (h : Request → Response) : MethodRouter :=
  { self with post := some (Route.ofHandler h) }

/-- `MethodRouter::put` (see `MethodRouter.get'`). -/
def MethodRouter.put' (self : MethodRouter) (h : Request → Response) : MethodRouter :=
  { self with put := some (Route.ofHandler h) }

/-- `MethodRouter::patch` (see `MethodRouter.get'`). -/
def MethodRouter.patch' (self : MethodRouter) (h : Request → Response) : MethodRouter :=
  { self with patch := some (Route.ofHandler h) }

/-- `MethodRouter::delete` (see `MethodRouter.get'`). -/
def MethodRouter.delete' (self : MethodRouter) (h : Request → Response) : MethodRouter :=
  { self with delete := some (Route.ofHandler h) }

/-- `MethodRouter::head` (see `MethodRouter.get'`). -/
def MethodRouter.head' (self : MethodRouter) (h : Request → Response) : MethodRouter :=
  { self with head := some (Route.ofHandler h) }

/-- `MethodRouter::options` (see `MethodRouter.get'`). -/
def MethodRouter.options' (self : MethodRouter) (h : Request → Response) : MethodRouter :=
  { self with options := some (Route.ofHandler h) }

/-- `MethodRouter::trace` (see `MethodRouter.get'`). -/
def MethodRouter.trace' (self : MethodRouter) (h : Request → Response) : MethodRouter :=
  { self with trace := some (Route.ofHandler h) }

/-- `MethodRouter::connect` (see `MethodRouter.get'`). -/
def MethodRouter.connect' (self : MethodRouter) (h : Request → Response) : MethodRouter :=
  { self with connect := some (Route.ofHandler h) }

/-- `MethodRouter::any` (router.rs): struct-update setting the fallback
slot unconditionally. -/
def MethodRouter.any (self : MethodRouter) (h : Request → Response) : MethodRouter :=
  { self with fallback := some (Route.ofHandler h) }

/-- Free function `get` from `impl_router_methods!` (router.rs). -/
def get (h : Request → Response) : MethodRouter :=
  { MethodRouter.default with get := some (Route.ofHandler h) }

/-- Free function `post`. -/
def post (h : Request → Response) : MethodRouter :=
  { MethodRouter.default with post := some (Route.ofHandler h) }

/-- Free function `put`. -/
def put (h : Request → Response) : MethodRouter :=
  { MethodRouter.default with put := some (Route.ofHandler h) }

/-- Free function `any` (router.rs). -/
def any (h : Request → Response) : MethodRouter :=
  { MethodRouter.default with fallback := some (Route.ofHandler h) }

/-- Split a path on `/` (structural recursion over the characters). -/
def splitSlashAux : List Char → List Char → List (List Char)
  | [], cur => [cur.reverse]
  | c :: cs, cur =>
    if c = '/' then cur.reverse :: splitSlashAux cs []
    else splitSlashAux cs (c :: cur)

/-- The `/`-separated segments of a path or pattern. -/
def pathSegments (s : String) : List String :=
  (splitSlashAux s.data []).map (fun cs => String.mk cs)

/-- A pattern segment starting with `:` is a named capture. -/
def segIsCapture (seg : String) : Bool :=
  match seg.data with
  | ':' :: _ => true
  | _ => false

/-- One pattern segment against one path segment: a capture matches any
non-empty segment, a literal matches itself. -/
def segMatches (pat seg : String) : Bool :=
  if segIsCapture pat then seg != "" else pat == seg

/-- A whole pattern against a whole path: same number of segments, each
matching. -/
def patMatches : List String → List String → Bool
  | [], [] => true
  | p :: ps, s :: ss => segMatches p s && patMatches ps ss
  | _, _ => false

/-- The `(name, value)` pairs captured by the pattern's capture segments,
in order of appearance (`matchit::Params`). -/
def capturedParams : List String → List String → List (String × String)
  | p :: ps, s :: ss =>
    if segIsCapture p then
      (String.mk (p.data.drop 1), s) :: capturedParams ps ss
    else capturedParams ps ss
  | _, _ => []

/-- matchit priority between two patterns matching the same path: at the
first position where exactly one side is a capture, the static side wins. -/
def staticBeats : List String → List String → Bool
  | p :: ps, q :: qs =>
    if segIsCapture p = segIsCapture q then staticBeats ps qs
    else segIsCapture q
  | _, _ => false

/-- Model of the matchit trie lookup over the insertion list: the
matching entry (with its index), preferring static segments over captures
and otherwise the earlier-inserted entry. -/
def bestMatch (entries : List (String × MethodRouter)) (path : String) :
    Option (Nat × (String × MethodRouter)) :=
  (entries.enum.filter
      (fun p => patMatches (pathSegments p.2.1) (pathSegments path))).foldl
    (fun best p =>
      match best with
      | none => some p
      | some b =>
        if staticBeats (pathSegments p.2.1) (pathSegments b.2.1) then some p
        else some b)
    none

/-- `Router` (router.rs): the matchit trie, modelled as the list of
inserted `(pattern, MethodRouter)` entries. -/
structure Router where
  router : List (String × MethodRouter)

/-- `Router::new`. -/
def Router.new : Router := ⟨[]⟩

/-- `matchit::Router::at`: the best-matching entry and its captured
parameters. -/
def Router.at (r : Router) (path : String) :
    Option ((String × MethodRouter) × List (String × String)) :=
  match bestMatch r.router path with
  | some (_, entry) =>
    some (entry, capturedParams (pathSegments entry.1) (pathSegments path))
  | none => none

/-- `Router::route` (router.rs): look the pattern string up *as a request
path* (`at_mut`); on a hit, merge the new `MethodRouter` into the matched
entry (a merge panic aborts construction), otherwise insert a new entry. -/
def Router.route (r : Router) (path : String) (mr : MethodRouter) :
    Except String Router :=
  match bestMatch r.router path with
  | some (i, entry) =>
    match entry.2.merge mr with
    | .ok merged => .ok ⟨r.router.set i (entry.1, merged)⟩
    | .error msg => .error msg
  | none => .ok ⟨r.router ++ [(path, mr)]⟩

/-- The method arm of the guarded `match` in `Router::call`: the slot
named by the request method (extension methods have no slot). -/
def MethodRouter.slot (mr : MethodRouter) : Method → Option Route
  | .GET => mr.get
  | .POST => mr.post
  | .PUT => mr.put
  | .PATCH => mr.patch
  | .DELETE => mr.delete
  | .HEAD => mr.head
  | .OPTIONS => mr.options
  | .TRACE => mr.trace
  | .CONNECT => mr.connect
  | .OTHER _ => none

/-- `Router::call` (router.rs): resolve the path (404 on a miss), attach
the captured parameters to the request's extensions, then dispatch: the
request method's slot if set (the `Method::X if route.x.is_some()` guard
arms), else the fallback if set, else 405. The `?` on the route service
call propagates an `Infallible` error and is thus unreachable. -/
def Router.call (r : Router) (req : Request) : Except String Response :=
  match r.at req.uriPath with
  | some (entry, params) =>
    let req := { req with extensions := some params }
    match entry.2.slot req.method with
    | some route =>
      match route.svcCall req with
      | .ok resp => .ok resp
      | .error e => e.elim
    | none =>
      match entry.2.fallback with
      | some route =>
        match route.svcCall req with
        | .ok resp => .ok resp
        | .error e => e.elim
      | none => .ok (statusCodeIntoResponse 405)
  | none => .ok (statusCodeIntoResponse 404)


/-- Example handler returning a bare 200 response. -/
def h200 : Request → Response := fun _ => statusCodeIntoResponse 200

/-- Example handler returning a bare 201 response. -/
def h201 : Request → Response := fun _ => statusCodeIntoResponse 201

/-- A part-contributor failure short-circuits the contributor loop:
whatever follows the failing contributor is never applied and its
converted rejection is the overall result. -/
lemma applyResponseParts_append (cs₁ : List ResponsePartContributor)
    (c : ResponsePartContributor) (cs₂ : List ResponsePartContributor)
    (parts parts' : ResponseParts) (err : c.Err)
    (h1 : applyResponseParts cs₁ parts = .ok parts')
    (h2 : c.intoResponseParts parts' = .error err) :
    applyResponseParts (cs₁ ++ c :: cs₂) parts = .error (c.errIntoResponse err) := by
  induction cs₁ generalizing parts with
  | nil =>
    simp [applyResponseParts] at h1
    subst h1
    simp [applyResponseParts, h2]
  | cons a as ih =>
    simp only [List.cons_append, applyResponseParts] at h1 ⊢
    cases ha : a.intoResponseParts parts with
    | error e => rw [ha] at h1; simp at h1
    | ok p1 =>
      rw [ha] at h1
      dsimp only at h1 ⊢
      exact ih p1 h1

/-- C4: a composite tuple first converts its final element to a response,
then applies the part contributors, left to right, to that response's
parts, keeping the body; a failing contributor's own converted rejection
is returned immediately; `(StatusCode::CREATED, "ok")` yields 201 with
`Content-Type: text/plain;charset=utf-8` and body `"ok"`; with two status
contributors the right one is applied last. -/
theorem tupleResponseConversion :
    (∀ (cs : List ResponsePartContributor) (lastRes : Response) (parts' : ResponseParts),
        applyResponseParts cs lastRes.intoParts.1 = .ok parts' →
        tupleIntoResponse cs lastRes = Response.fromParts parts' lastRes.body) ∧
    (∀ (cs₁ : List ResponsePartContributor) (c : ResponsePartContributor)
        (cs₂ : List ResponsePartContributor) (lastRes : Response)
        (parts' : ResponseParts) (err : c.Err),
        applyResponseParts cs₁ lastRes.intoParts.1 = .ok parts' →
        c.intoResponseParts parts' = .error err →
        tupleIntoResponse (cs₁ ++ c :: cs₂) lastRes = c.errIntoResponse err) ∧
    tupleIntoResponse [statusCodeContributor 201] (strIntoResponse (asciiBytes "ok")) =
      ⟨201, [("content-type", "text/plain;charset=utf-8")], asciiBytes "ok"⟩ ∧
    (∀ s1 s2 : Nat,
        tupleIntoResponse [statusCodeContributor s1, statusCodeContributor s2]
            (strIntoResponse (asciiBytes "ok")) =
          ⟨s2, [("content-type", "text/plain;charset=utf-8")], asciiBytes "ok"⟩) := by
  refine ⟨?_, ?_, ?_, ?_⟩
  · intro cs lastRes parts' h
    obtain ⟨st, hd, bd⟩ := lastRes
    simp only [tupleIntoResponse, Response.intoParts] at *
    rw [h]
  · intro cs₁ c cs₂ lastRes parts' err h1 h2
    obtain ⟨st, hd, bd⟩ := lastRes
    simp only [tupleIntoResponse, Response.intoParts] at *
    rw [applyResponseParts_append cs₁ c cs₂ _ parts' err h1 h2]
  · rfl
  · intro s1 s2
    rfl

theorem tupleResponseConversion_witness :
    applyResponseParts [] (strIntoResponse (asciiBytes "ok")).intoParts.1 =
        .ok (strIntoResponse (asciiBytes "ok")).intoParts.1 ∧
    tupleIntoResponse [] (strIntoResponse (asciiBytes "ok")) =
      Response.fromParts (strIntoResponse (asciiBytes "ok")).intoParts.1
        (strIntoResponse (asciiBytes "ok")).body :=
  ⟨rfl, tupleResponseConversion.1 [] (strIntoResponse (asciiBytes "ok")) _ rfl⟩

/-- C8: the built-in simple conversions: a status code alone gives that
status with empty body and no headers; static and owned strings give
200 with the text/plain content type and the string's bytes; byte
buffers (slice, array reference, array, vector) give 200 with the
octet-stream content type and the bytes; a pre-built response is
returned unchanged. -/
theorem builtinIntoResponse :
    (∀ s, statusCodeIntoResponse s = ⟨s, [], []⟩) ∧
    (∀ r, responseIntoResponse r = r) ∧
    (∀ b, strIntoResponse b = ⟨200, [("content-type", "text/plain;charset=utf-8")], b⟩) ∧
    (∀ b, stringIntoResponse b = ⟨200, [("content-type", "text/plain;charset=utf-8")], b⟩) ∧
    (∀ b, byteSliceIntoResponse b = ⟨200, [("content-type", "application/octet-stream")], b⟩) ∧
    (∀ b, byteArrayRefIntoResponse b = ⟨200, [("content-type", "application/octet-stream")], b⟩) ∧
    (∀ b, byteArrayIntoResponse b = ⟨200, [("content-type", "application/octet-stream")], b⟩) ∧
    (∀ b, byteVecIntoResponse b = ⟨200, [("content-type", "application/octet-stream")], b⟩) :=
  ⟨fun _ => rfl, fun _ => rfl, fun _ => rfl, fun _ => rfl, fun _ => rfl,
   fun _ => rfl, fun _ => rfl, fun _ => rfl⟩

/-- C9: dispatch always answers: every branch of `Router::call` produces
`Ok` of some response (the error propagation from a route's service call
is dead code, its error type being uninhabited). -/
theorem routerCallNeverErrors (r : Router) (req : Request) :
    ∃ resp, r.call req = .ok resp := by
  unfold Router.call
  cases r.at req.uriPath with
  | none => exact ⟨_, rfl⟩
  | some pe =>
    obtain ⟨entry, params⟩ := pe
    dsimp only
    cases MethodRouter.slot entry.2 { req with extensions := some params }.method with
    | some route =>
      dsimp only
      cases route.svcCall { req with extensions := some params } with
      | ok resp => exact ⟨resp, rfl⟩
      | error e => exact e.elim
    | none =>
      dsimp only
      cases entry.2.fallback with
      | some route =>
        dsimp only
        cases route.svcCall { req with extensions := some params } with
        | ok resp => exact ⟨resp, rfl⟩
        | error e => exact e.elim
      | none => exact ⟨_, rfl⟩

/-- A part-extractor failure short-circuits the extraction loop: whatever
extractors follow the failing one never run and its converted rejection
is the overall outcome. -/
lemma runPartExtractors_append (e : PartExtractor) (es₂ : List PartExtractor)
    (parts' : RequestParts) (rej : e.Rej) (h2 : e.extract parts' = .error rej) :
    ∀ (es₁ : List PartExtractor) (parts : RequestParts) (vs : PartVals es₁),
      runPartExtractors es₁ parts = .ok (vs, parts') →
      runPartExtractors (es₁ ++ e :: es₂) parts = .error (e.rejIntoResponse rej) := by
  intro es₁
  induction es₁ with
  | nil =>
    intro parts vs h1
    simp [runPartExtractors] at h1
    obtain ⟨hv, hp⟩ := h1
    subst hp
    simp [runPartExtractors, h2]
  | cons a as ih =>
    intro parts vs h1
    simp only [List.cons_append, runPartExtractors] at h1 ⊢
    cases ha : a.extract parts with
    | error r => rw [ha] at h1; simp at h1
    | ok vp =>
      obtain ⟨v, p1⟩ := vp
      rw [ha] at h1
      dsimp only at h1 ⊢
      cases hr : runPartExtractors as p1 with
      | error resp => rw [hr] at h1; simp at h1
      | ok vsp =>
        obtain ⟨vs', p2⟩ := vsp
        rw [hr] at h1
        dsimp only at h1
        have hp2 : p2 = parts' := by
          cases h1
          rfl
        subst hp2
        simp only [List.append_eq]
        rw [ih p1 vs' hr]

/-- C2: the adapter extracts the leading parameters as part extractions,
in declaration order, against the request's metadata, then reconstitutes
the request with its unread body and hands it to the full-request
extractor for the final parameter; a two-parameter `(Method, String)`
handler dispatched with method PUT and body "hi" receives `(PUT, "hi")`. -/
theorem handlerExtractionOrder :
    (∀ (es : List PartExtractor) (fe : FullExtractor)
        (f : PartVals es → fe.Val → Response) (req : Request)
        (vs : PartVals es) (parts' : RequestParts),
        runPartExtractors es req.intoParts.1 = .ok (vs, parts') →
        handlerCall es fe f req =
          (match fe.extract (Request.fromParts parts' req.intoParts.2) with
           | .ok last => f vs last
           | .error rej => fe.rejIntoResponse rej)) ∧
    (∀ (f : Method → List Nat → Response) (req : Request),
        req.method = .PUT → req.body = .bytes (asciiBytes "hi") →
        handlerCall [methodPE] stringFE (fun vs s => f vs.headVal s) req =
          f .PUT (asciiBytes "hi")) := by
  constructor
  · intro es fe f req vs parts' h
    obtain ⟨m, p, hs, ex, b⟩ := req
    simp only [handlerCall, Request.intoParts] at h ⊢
    rw [h]
    dsimp only
    cases fe.extract (Request.fromParts parts' b) <;> rfl
  · intro f req h1 h2
    obtain ⟨m, p, hs, ex, b⟩ := req
    simp only at h1 h2
    subst h1
    subst h2
    rfl

theorem handlerExtractionOrder_witness :
    handlerCall [methodPE] stringFE
        (fun vs s => (fun (_ : Method) (s' : List Nat) => stringIntoResponse s') vs.headVal s)
        ⟨.PUT, "/hello", [], none, .bytes (asciiBytes "hi")⟩ =
      stringIntoResponse (asciiBytes "hi") :=
  handlerExtractionOrder.2 (fun _ s' => stringIntoResponse s')
    ⟨.PUT, "/hello", [], none, .bytes (asciiBytes "hi")⟩ rfl rfl

/-- C3: a failing extraction aborts the dispatch: extractors after the
failing one never run, the handler function is never invoked, and the
result is the failure's converted response; the String body extractor
fails exactly on a body read error or invalid UTF-8, and its rejection
converts to a 500 response with body "error reading body". -/
theorem extractionFailureShortCircuit :
    (∀ (es₁ : List PartExtractor) (e : PartExtractor) (es₂ : List PartExtractor)
        (fe : FullExtractor) (f : PartVals (es₁ ++ e :: es₂) → fe.Val → Response)
        (req : Request) (vs : PartVals es₁) (parts' : RequestParts) (rej : e.Rej),
        runPartExtractors es₁ req.intoParts.1 = .ok (vs, parts') →
        e.extract parts' = .error rej →
        handlerCall (es₁ ++ e :: es₂) fe f req = e.rejIntoResponse rej) ∧
    (∀ (es : List PartExtractor) (fe : FullExtractor)
        (f : PartVals es → fe.Val → Response) (req : Request)
        (vs : PartVals es) (parts' : RequestParts) (rej : fe.Rej),
        runPartExtractors es req.intoParts.1 = .ok (vs, parts') →
        fe.extract (Request.fromParts parts' req.intoParts.2) = .error rej →
        handlerCall es fe f req = fe.rejIntoResponse rej) ∧
    (∀ req : Request,
        (∃ rej, stringFromRequest req = .error rej) ↔
          (req.body = .readError ∨
            ∃ bs, req.body = .bytes bs ∧ validUtf8 bs = false)) ∧
    (∀ rej : StringRejection,
        rej.intoResponse = ⟨500, [], asciiBytes "error reading body"⟩) := by
  refine ⟨?_, ?_, ?_, fun _ => rfl⟩
  · intro es₁ e es₂ fe f req vs parts' rej h1 h2
    obtain ⟨m, p, hs, ex, b⟩ := req
    simp only [handlerCall, Request.intoParts] at h1 ⊢
    rw [runPartExtractors_append e es₂ parts' rej h2 es₁ _ vs h1]
  · intro es fe f req vs parts' rej h1 h2
    obtain ⟨m, p, hs, ex, b⟩ := req
    simp only [handlerCall, Request.intoParts] at h1 h2 ⊢
    rw [h1]
    dsimp only
    rw [h2]
  · intro req
    obtain ⟨m, p, hs, ex, b⟩ := req
    cases b with
    | readError => simp [stringFromRequest, Body.intoBytes]
    | bytes bs =>
      by_cases hv : validUtf8 bs
      · simp [stringFromRequest, Body.intoBytes, hv]
      · simp [stringFromRequest, Body.intoBytes, hv]

theorem extractionFailureShortCircuit_witness :
    handlerCall [methodPE] stringFE (fun _ _ => statusCodeIntoResponse 200)
        ⟨.GET, "/", [], none, .bytes [255]⟩ =
      StringRejection.intoResponse .invalidUtf8 :=
  extractionFailureShortCircuit.2.1 [methodPE] stringFE _
    ⟨.GET, "/", [], none, .bytes [255]⟩ (.cons .GET .nil) _ .invalidUtf8 rfl rfl

/-- Inverting a successful `Except` bind. -/
lemma bindE_ok {α β : Type} {ma : Except String α} {f : α → Except String β} {r : β}
    (h : (ma >>= f) = .ok r) : ∃ a, ma = .ok a ∧ f a = .ok r := by
  cases ma <;> simp_all [Bind.bind, Except.bind]

/-- Inverting a failing `Except` bind. -/
lemma bindE_err {α β : Type} {ma : Except String α} {f : α → Except String β} {msg : String}
    (h : (ma >>= f) = .error msg) :
    ma = .error msg ∨ ∃ a, ma = .ok a ∧ f a = .error msg := by
  cases ma <;> simp_all [Bind.bind, Except.bind]

/-- A successful slot merge keeps a set existing slot and adopts the
incoming slot when the existing one is empty. -/
lemma mergeSlot_ok_inv {a b c : Option Route} (h : mergeSlot a b = .ok c) :
    (a = none → c = b) ∧ (b = none → c = a) := by
  cases a <;> cases b <;> simp_all [mergeSlot]

/-- Merging two set slots panics. -/
lemma mergeSlot_conflict {a b : Option Route} (ha : a.isSome = true)
    (hb : b.isSome = true) : mergeSlot a b = .error mergePanicMessage := by
  cases a <;> cases b <;> simp_all [mergeSlot]

/-- The only panic message a slot merge can produce. -/
lemma mergeSlot_error_msg {a b : Option Route} {msg : String}
    (h : mergeSlot a b = .error msg) : msg = mergePanicMessage := by
  cases a <;> cases b <;> simp_all [mergeSlot]

/-- A successful `MethodRouter::merge` merges every slot with
`mergeSlot`. -/
lemma merge_ok_inv (self inc m : MethodRouter) (h : self.merge inc = .ok m) :
    mergeSlot self.get inc.get = .ok m.get ∧
    mergeSlot self.post inc.post = .ok m.post ∧
    mergeSlot self.put inc.put = .ok m.put ∧
    mergeSlot self.patch inc.patch = .ok m.patch ∧
    mergeSlot self.delete inc.delete = .ok m.delete ∧
    mergeSlot self.head inc.head = .ok m.head ∧
    mergeSlot self.options inc.options = .ok m.options ∧
    mergeSlot self.trace inc.trace = .ok m.trace ∧
    mergeSlot self.connect inc.connect = .ok m.connect ∧
    mergeSlot self.fallback inc.fallback = .ok m.fallback := by
  unfold MethodRouter.merge at h
  obtain ⟨g, hg, h⟩ := bindE_ok h
  obtain ⟨po, hpo, h⟩ := bindE_ok h
  obtain ⟨pu, hpu, h⟩ := bindE_ok h
  obtain ⟨pa, hpa, h⟩ := bindE_ok h
  obtain ⟨de, hde, h⟩ := bindE_ok h
  obtain ⟨he, hhe, h⟩ := bindE_ok h
  obtain ⟨op, hop, h⟩ := bindE_ok h
  obtain ⟨tr, htr, h⟩ := bindE_ok h
  obtain ⟨co, hco, h⟩ := bindE_ok h
  obtain ⟨fb, hfb, h⟩ := bindE_ok h
  simp only [pure, Except.pure, Except.ok.injEq] at h
  subst h
  exact ⟨hg, hpo, hpu, hpa, hde, hhe, hop, htr, hco, hfb⟩

/-- Every failure of `MethodRouter::merge` carries the fixed panic
message. -/
lemma merge_error_msg {self inc : MethodRouter} {msg : String}
    (h : self.merge inc = .error msg) : msg = mergePanicMessage := by
  unfold MethodRouter.merge at h
  rcases bindE_err h with h1 | ⟨g, -, h⟩
  · exact mergeSlot_error_msg h1
  rcases bindE_err h with h1 | ⟨po, -, h⟩
  · exact mergeSlot_error_msg h1
  rcases bindE_err h with h1 | ⟨pu, -, h⟩
  · exact mergeSlot_error_msg h1
  rcases bindE_err h with h1 | ⟨pa, -, h⟩
  · exact mergeSlot_error_msg h1
  rcases bindE_err h with h1 | ⟨de, -, h⟩
  · exact mergeSlot_error_msg h1
  rcases bindE_err h with h1 | ⟨he, -, h⟩
  · exact mergeSlot_error_msg h1
  rcases bindE_err h with h1 | ⟨op, -, h⟩
  · exact mergeSlot_error_msg h1
  rcases bindE_err h with h1 | ⟨tr, -, h⟩
  · exact mergeSlot_error_msg h1
  rcases bindE_err h with h1 | ⟨co, -, h⟩
  · exact mergeSlot_error_msg h1
  rcases bindE_err h with h1 | ⟨fb, -, h⟩
  · exact mergeSlot_error_msg h1
  simp [pure, Except.pure] at h

/-- Two `MethodRouter`s that both define some slot. -/
def slotConflict (a b : MethodRouter) : Prop :=
  (a.get.isSome = true ∧ b.get.isSome = true) ∨
  (a.post.isSome = true ∧ b.post.isSome = true) ∨
  (a.put.isSome = true ∧ b.put.isSome = true) ∨
  (a.patch.isSome = true ∧ b.patch.isSome = true) ∨
  (a.delete.isSome = true ∧ b.delete.isSome = true) ∨
  (a.head.isSome = true ∧ b.head.isSome = true) ∨
  (a.options.isSome = true ∧ b.options.isSome = true) ∨
  (a.trace.isSome = true ∧ b.trace.isSome = true) ∨
  (a.connect.isSome = true ∧ b.connect.isSome = true) ∨
  (a.fallback.isSome = true ∧ b.fallback.isSome = true)

/-- A slot conflict makes `MethodRouter::merge` panic with the fixed
message. -/
lemma merge_conflict (self inc : MethodRouter) (hc : slotConflict self inc) :
    self.merge inc = .error mergePanicMessage := by
  cases hm : self.merge inc with
  | error msg => rw [merge_error_msg hm]
  | ok m =>
    exfalso
    obtain ⟨h1, h2, h3, h4, h5, h6, h7, h8, h9, h10⟩ := merge_ok_inv self inc m hm
    rcases hc with hc | hc | hc | hc | hc | hc | hc | hc | hc | hc
    · have := (mergeSlot_conflict hc.1 hc.2).symm.trans h1; simp at this
    · have := (mergeSlot_conflict hc.1 hc.2).symm.trans h2; simp at this
    · have := (mergeSlot_conflict hc.1 hc.2).symm.trans h3; simp at this
    · have := (mergeSlot_conflict hc.1 hc.2).symm.trans h4; simp at this
    · have := (mergeSlot_conflict hc.1 hc.2).symm.trans h5; simp at this
    · have := (mergeSlot_conflict hc.1 hc.2).symm.trans h6; simp at this
    · have := (mergeSlot_conflict hc.1 hc.2).symm.trans h7; simp at this
    · have := (mergeSlot_conflict hc.1 hc.2).symm.trans h8; simp at this
    · have := (mergeSlot_conflict hc.1 hc.2).symm.trans h9; simp at this
    · have := (mergeSlot_conflict hc.1 hc.2).symm.trans h10; simp at this

/-- C5: a successful merge adopts an incoming slot the existing entry
lacks, keeps a set existing slot, and leaves slots set in neither empty;
consequently registering `GET /x` and then `POST /x` yields a single
entry serving both methods. -/
theorem methodRouterMergeAdopts :
    (∀ (self inc m : MethodRouter), self.merge inc = .ok m →
        (∀ mth : Method,
          (self.slot mth = none → m.slot mth = inc.slot mth) ∧
          (inc.slot mth = none → m.slot mth = self.slot mth)) ∧
        (self.fallback = none → m.fallback = inc.fallback) ∧
        (inc.fallback = none → m.fallback = self.fallback)) ∧
    (Router.new.route "/x" (get h200) = .ok ⟨[("/x", get h200)]⟩ ∧
     (⟨[("/x", get h200)]⟩ : Router).route "/x" (post h201) =
       .ok ⟨[("/x", (get h200).post' h201)]⟩ ∧
     (⟨[("/x", (get h200).post' h201)]⟩ : Router).call
         ⟨.GET, "/x", [], none, .bytes []⟩ = .ok (statusCodeIntoResponse 200) ∧
     (⟨[("/x", (get h200).post' h201)]⟩ : Router).call
         ⟨.POST, "/x", [], none, .bytes []⟩ = .ok (statusCodeIntoResponse 201)) := by
  constructor
  · intro self inc m hm
    obtain ⟨h1, h2, h3, h4, h5, h6, h7, h8, h9, h10⟩ := merge_ok_inv self inc m hm
    refine ⟨?_, mergeSlot_ok_inv h10⟩
    intro mth
    cases mth with
    | GET => exact mergeSlot_ok_inv h1
    | POST => exact mergeSlot_ok_inv h2
    | PUT => exact mergeSlot_ok_inv h3
    | PATCH => exact mergeSlot_ok_inv h4
    | DELETE => exact mergeSlot_ok_inv h5
    | HEAD => exact mergeSlot_ok_inv h6
    | OPTIONS => exact mergeSlot_ok_inv h7
    | TRACE => exact mergeSlot_ok_inv h8
    | CONNECT => exact mergeSlot_ok_inv h9
    | OTHER s => exact ⟨fun _ => rfl, fun _ => rfl⟩
  · exact ⟨rfl, rfl, rfl, rfl⟩

theorem methodRouterMergeAdopts_witness :
    (get h200).merge (post h201) = .ok ((get h200).post' h201) ∧
    ((get h200).post' h201).slot .POST = (post h201).slot .POST :=
  ⟨rfl,
   ((methodRouterMergeAdopts.1 (get h200) (post h201)
       ((get h200).post' h201) rfl).1 .POST).1 rfl⟩

/-- C6 counterexample: conflicting registrations with different methods
and different paths abort with the identical fixed diagnostic
`"Method already defined"`, so the diagnostic identifies neither the
conflicting method nor the path. -/
theorem mergeConflictDiagnosticCounterexample :
    (⟨[("/x", get h200)]⟩ : Router).route "/x" (get h201) =
        .error "Method already defined" ∧
    (⟨[("/y", post h200)]⟩ : Router).route "/y" (post h201) =
        .error "Method already defined" := ⟨rfl, rfl⟩

/-- C6 (amended): a slot conflict between two MethodRouters merged at
the same path stops route construction with a fatal configuration error
(the merge panic) rather than silently picking one handler; the
diagnostic is the fixed string `"Method already defined"`. -/
theorem mergeConflictHaltsConstruction :
    (∀ self inc : MethodRouter, slotConflict self inc →
        self.merge inc = .error mergePanicMessage) ∧
    (∀ (r : Router) (path : String) (mr : MethodRouter) (i : Nat)
        (entry : String × MethodRouter),
        bestMatch r.router path = some (i, entry) →
        slotConflict entry.2 mr →
        r.route path mr = .error mergePanicMessage) := by
  refine ⟨merge_conflict, ?_⟩
  intro r path mr i entry hbm hc
  unfold Router.route
  rw [hbm]
  dsimp only
  rw [merge_conflict entry.2 mr hc]

theorem mergeConflictHaltsConstruction_witness :
    (⟨[("/x", get h200)]⟩ : Router).route "/x" (get h201) =
      .error mergePanicMessage :=
  mergeConflictHaltsConstruction.2 ⟨[("/x", get h200)]⟩ "/x" (get h201) 0
    ("/x", get h200) rfl (Or.inl ⟨rfl, rfl⟩)

/-- C7 counterexample: the chained builder methods silently overwrite an
already-set slot: a second `.get(...)` (or `.any(...)`) replaces the
previously registered handler without any configuration error. -/
theorem builderSilentOverwrite :
    (MethodRouter.default.get' h200).get = some (Route.ofHandler h200) ∧
    ((MethodRouter.default.get' h200).get' h201).get = some (Route.ofHandler h201) ∧
    ((MethodRouter.default.any h200).any h201).fallback = some (Route.ofHandler h201) ∧
    Route.ofHandler h201 ≠ Route.ofHandler h200 := by
  refine ⟨rfl, rfl, rfl, ?_⟩
  intro heq
  have h2 := congrArg (fun rt => rt.svcCall ⟨.GET, "/", [], none, .bytes []⟩) heq
  simp [Route.ofHandler, h200, h201, statusCodeIntoResponse, Response.build] at h2

/-- C7 (amended): a slot conflict is a configuration error only at merge
time — merging two MethodRouters that both define a method or fallback
slot fails construction — while the chained per-method builder methods
and `.any` set their slot unconditionally, replacing any handler already
in it without error. -/
theorem slotConflictOnlyAtMergeTime :
    (∀ self inc : MethodRouter, slotConflict self inc →
        self.merge inc = .error mergePanicMessage) ∧
    (∀ (mr : MethodRouter) (h : Request → Response),
        (mr.get' h).get = some (Route.ofHandler h) ∧
        (mr.post' h).post = some (Route.ofHandler h) ∧
        (mr.put' h).put = some (Route.ofHandler h) ∧
        (mr.patch' h).patch = some (Route.ofHandler h) ∧
        (mr.delete' h).delete = some (Route.ofHandler h) ∧
        (mr.head' h).head = some (Route.ofHandler h) ∧
        (mr.options' h).options = some (Route.ofHandler h) ∧
        (mr.trace' h).trace = some (Route.ofHandler h) ∧
        (mr.connect' h).connect = some (Route.ofHandler h) ∧
        (mr.any h).fallback = some (Route.ofHandler h)) :=
  ⟨merge_conflict,
   fun _ _ => ⟨rfl, rfl, rfl, rfl, rfl, rfl, rfl, rfl, rfl, rfl⟩⟩

theorem slotConflictOnlyAtMergeTime_witness :
    (any h200).merge (any h201) = .error mergePanicMessage :=
  slotConflictOnlyAtMergeTime.1 (any h200) (any h201)
    (Or.inr (Or.inr (Or.inr (Or.inr (Or.inr (Or.inr (Or.inr (Or.inr
      (Or.inr ⟨rfl, rfl⟩)))))))))

/-- C1: `Router::call` dispatch: an unresolved path yields 404 and no
handler output is involved; on a resolved path the request method's slot
handler answers when set, else the fallback handler when set, else the
response is 405. -/
theorem routerDispatch (r : Router) (req : Request) :
    (r.at req.uriPath = none → r.call req = .ok (statusCodeIntoResponse 404)) ∧
    (∀ (entry : String × MethodRouter) (params : List (String × String))
        (rt : Route) (resp : Response),
        r.at req.uriPath = some (entry, params) →
        entry.2.slot req.method = some rt →
        rt.svcCall { req with extensions := some params } = .ok resp →
        r.call req = .ok resp) ∧
    (∀ (entry : String × MethodRouter) (params : List (String × String))
        (rt : Route) (resp : Response),
        r.at req.uriPath = some (entry, params) →
        entry.2.slot req.method = none →
        entry.2.fallback = some rt →
        rt.svcCall { req with extensions := some params } = .ok resp →
        r.call req = .ok resp) ∧
    (∀ (entry : String × MethodRouter) (params : List (String × String)),
        r.at req.uriPath = some (entry, params) →
        entry.2.slot req.method = none →
        entry.2.fallback = none →
        r.call req = .ok (statusCodeIntoResponse 405)) := by
  refine ⟨?_, ?_, ?_, ?_⟩
  · intro hat
    unfold Router.call
    rw [hat]
  · intro entry params rt resp hat hslot hsvc
    unfold Router.call
    rw [hat]
    dsimp only
    rw [hslot]
    dsimp only
    rw [hsvc]
  · intro entry params rt resp hat hslot hfb hsvc
    unfold Router.call
    rw [hat]
    dsimp only
    rw [hslot]
    dsimp only
    rw [hfb]
    dsimp only
    rw [hsvc]
  · intro entry params hat hslot hfb
    unfold Router.call
    rw [hat]
    dsimp only
    rw [hslot]
    dsimp only
    rw [hfb]

theorem routerDispatch_witness :
    (⟨[("/x", (get h200).post' h201)]⟩ : Router).call
        ⟨.PUT, "/x", [], none, .bytes []⟩ = .ok (statusCodeIntoResponse 405) :=
  (routerDispatch ⟨[("/x", (get h200).post' h201)]⟩
      ⟨.PUT, "/x", [], none, .bytes []⟩).2.2.2
    ("/x", (get h200).post' h201) [] rfl rfl rfl

/-- C10: `Router::route` decides between merging and inserting by
matching the pattern string as a request path against the trie: a hit
merges into the matched entry (keeping its pattern and position), a miss
appends a new entry; in particular a literal `/x` registered after
`/:id` is merged into the `/:id` entry instead of becoming a distinct
route. -/
theorem routeMergesByPathMatch :
    (∀ (r : Router) (path : String) (mr merged : MethodRouter) (i : Nat)
        (entry : String × MethodRouter),
        bestMatch r.router path = some (i, entry) →
        entry.2.merge mr = .ok merged →
        r.route path mr = .ok ⟨r.router.set i (entry.1, merged)⟩) ∧
    (∀ (r : Router) (path : String) (mr : MethodRouter),
        bestMatch r.router path = none →
        r.route path mr = .ok ⟨r.router ++ [(path, mr)]⟩) ∧
    (⟨[("/:id", get h200)]⟩ : Router).route "/x" (post h201) =
      .ok ⟨[("/:id", (get h200).post' h201)]⟩ := by
  refine ⟨?_, ?_, rfl⟩
  · intro r path mr merged i entry hbm hmerge
    unfold Router.route
    rw [hbm]
    dsimp only
    rw [hmerge]
  · intro r path mr hbm
    unfold Router.route
    rw [hbm]

theorem routeMergesByPathMatch_witness :
    Router.new.route "/q" (get h200) = .ok ⟨[("/q", get h200)]⟩ :=
  routeMergesByPathMatch.2.1 Router.new "/q" (get h200) rfl

end Spike
